import Mathlib

/-
Verification development for the AlphaNeuron freight-dispatch backend
(`backend/app`).  The decision-and-matching core is embedded shallowly:

* numbers are modelled as rationals (the Python source only performs
  field arithmetic on its floats, so the rational model is exact up to
  float representation error, which no claim is about);
* Python's builtin `round` (banker's rounding, round-half-to-even) is
  modelled exactly by `pythonRound`; `round(x, 1)` by `pythonRound1`,
  `round(x, 2)` by `pythonRound2`;
* Python's stable `list.sort(key=…, reverse=True)` is modelled by
  Mathlib's `List.insertionSort` with the "key is at least" relation,
  which is the (unique) stable descending sort;
* `sub in str(xs).lower()` probes are modelled by `lowerReprContains`
  (see its doc comment);
* strings interpolated from numbers are rendered with `toString` on the
  rational; no code path embedded here ever branches on those rendered
  digits, so the difference from CPython's float formatting is inert;
* wall-clock reads (`datetime.now()`) and randomness (`random.uniform`)
  are passed in as explicit parameters where the surrounding code uses
  their result, and omitted where only stored in unread fields.
-/

/-- Python's builtin `round` on a rational: round half to even. -/
def pythonRound (q : ℚ) : ℤ :=
  if q - ⌊q⌋ < 1/2 then ⌊q⌋
  else if 1/2 < q - ⌊q⌋ then ⌊q⌋ + 1
  else if ⌊q⌋ % 2 = 0 then ⌊q⌋ else ⌊q⌋ + 1

/-- Python's `round(x, 1)`. -/
def pythonRound1 (q : ℚ) : ℚ := (pythonRound (q * 10) : ℚ) / 10

/-- Python's `round(x, 2)`. -/
def pythonRound2 (q : ℚ) : ℚ := (pythonRound (q * 100) : ℚ) / 100

/-- ASCII lower-casing of one character, as Python's `str.lower` acts on
the ASCII strings this codebase compares. -/
def pyLowerChar (c : Char) : Char :=
  if 'A' ≤ c ∧ c ≤ 'Z' then Char.ofNat (c.toNat + 32) else c

/-- Python's `s.lower()` on the ASCII strings used by the source. -/
def pyLower (s : String) : String := ⟨s.data.map pyLowerChar⟩

/-- Does the second character list start with the first? -/
def charsLeadWith : List Char → List Char → Bool
  | [], _ => true
  | _ :: _, [] => false
  | a :: as, b :: bs => a == b && charsLeadWith as bs

/-- Does the character list `hay` contain `needle` as a contiguous run? -/
def charsContain (needle : List Char) : List Char → Bool
  | [] => charsLeadWith needle []
  | c :: cs => charsLeadWith needle (c :: cs) || charsContain needle cs

/-- Python's `sub in hay` on strings. -/
def strContains (hay sub : String) : Bool := charsContain sub.data hay.data

/-- Model of Python's `probe in str(xs).lower()` for a list of strings
`xs`.  The probes the source uses ("refuel", "rest", "traffic") contain
no quote, comma or bracket character, so a hit inside the rendered
`str(xs)` cannot span the `', '` separators or the enclosing brackets:
the probe occurs in the rendering iff it occurs in some element. -/
def lowerReprContains (xs : List String) (probe : String) : Bool :=
  xs.any fun s => strContains (pyLower s) probe

/-- Fields that `mock_routes._add_variability` adds to a route record.
`variability` stands for the `random.uniform(0.9, 1.3)` draw. -/
structure RouteEta where
  estimated_hours : ℚ
  eta_optimistic_hours : ℚ
  eta_expected_hours : ℚ
  eta_pessimistic_hours : ℚ
deriving DecidableEq

/-- `mock_routes._add_variability`: the ETA fields computed from a
route's `base_hours` (the same three formulas are used verbatim by
`mock_routes._estimate_route`). -/
def addVariability (base_hours : ℚ) (variability : ℚ) : RouteEta :=
  { estimated_hours := pythonRound1 (base_hours * variability)
    eta_optimistic_hours := pythonRound1 (base_hours * 0.9)
    eta_expected_hours := pythonRound1 (base_hours * 1.15)
    eta_pessimistic_hours := pythonRound1 (base_hours * 1.5) }

/-- Hours of the ETA range of
`NeuroLogisticsSupervisor._calculate_eta_range` (arrival timestamps,
`now` plus these hours, are omitted as clock reads). -/
structure EtaRangeHours where
  optimistic_hours : ℚ
  expected_hours : ℚ
  pessimistic_hours : ℚ
deriving DecidableEq

/-- `NeuroLogisticsSupervisor._calculate_eta_range`: `delay` is
`delay_factors["total_expected_delay_hours"]` (a sum of nonnegative
toll/border/traffic contributions). -/
def calcEtaRange (base_hours delay : ℚ) : EtaRangeHours :=
  { optimistic_hours := pythonRound1 (base_hours * 0.95)
    expected_hours := pythonRound1 (base_hours + delay)
    pessimistic_hours := pythonRound1 (base_hours + delay * 2.5) }

/-- Route record consumed by `MissionPlanner._calculate_dynamic_fare`
(the fields of the `mock_routes` dictionaries that the fare uses). -/
structure RouteInfo where
  distance_km : ℚ
  toll_cost : ℚ
  checkpoints : List String
  risk_level : String
  base_hours : ℚ
deriving DecidableEq

/-- The `cargo_factors` dict of `_calculate_dynamic_fare` as a lookup
with default 0.05. -/
def cargoFactorTable (c : String) : ℚ :=
  if c = "hazmat" then 0.25
  else if c = "chemicals" then 0.20
  else if c = "perishables" then 0.15
  else if c = "fragile" then 0.12
  else if c = "electronics" then 0.10
  else if c = "pharmaceuticals" then 0.12
  else if c = "general" then 0.0
  else if c = "steel" then 0.05
  else if c = "cement" then 0.03
  else 0.05

/-- `cargo_factors.get(cargo_type.lower(), 0.05)`. -/
def cargoFactor (cargo_type : String) : ℚ := cargoFactorTable (pyLower cargo_type)

/-- The `risk_factors` lookup with default 0.05
(`risk_factors.get(route.get("risk_level", "medium"), 0.05)`). -/
def riskFactor (risk_level : String) : ℚ :=
  if risk_level = "low" then 0.0
  else if risk_level = "medium" then 0.05
  else if risk_level = "high" then 0.12
  else if risk_level = "unknown" then 0.08
  else 0.05

/-- Weight tier bonus of `_calculate_dynamic_fare`. -/
def weightEffort (weight_tons : ℚ) : ℚ :=
  if 20 < weight_tons then 0.15
  else if 15 < weight_tons then 0.10
  else if 10 < weight_tons then 0.05
  else 0

/-- Effort multiplier of `_calculate_dynamic_fare`: 1.0 plus the weight
tier, checkpoint, cargo-type and risk contributions, in source order. -/
def effortMultiplier (route : RouteInfo) (cargo_type : String) (weight_tons : ℚ) : ℚ :=
  1.0 + weightEffort weight_tons + (route.checkpoints.length : ℚ) * 0.03 +
    cargoFactor cargo_type + riskFactor route.risk_level

/-- The local `total_fare` value of `_calculate_dynamic_fare`:
`adjusted_base + toll_cost + fuel_cost * 0.3` with
`adjusted_base = (distance * 55) * effort_multiplier` and
`fuel_cost = (distance / 3.5) * 90`. -/
def fareTotalValue (route : RouteInfo) (cargo_type : String) (weight_tons : ℚ) : ℚ :=
  route.distance_km * 55 * effortMultiplier route cargo_type weight_tons +
    route.toll_cost + route.distance_km / 3.5 * 90 * 0.3

/-- The `total_fare` entry of the returned fare dict: `round(total_fare)`. -/
def fareTotal (route : RouteInfo) (cargo_type : String) (weight_tons : ℚ) : ℤ :=
  pythonRound (fareTotalValue route cargo_type weight_tons)

/-- Fare dictionary returned by `MissionPlanner._calculate_dynamic_fare`. -/
structure DynamicFare where
  base_fare : ℤ
  effort_multiplier : ℚ
  adjusted_base : ℤ
  toll_cost : ℚ
  fuel_estimate : ℤ
  driver_allowance : ℤ
  total_fare : ℤ
  per_km_rate : ℚ
deriving DecidableEq

/-- `MissionPlanner._calculate_dynamic_fare`.  The function performs no
input validation; its only failure mode is the `ZeroDivisionError`
raised by `per_km_rate = round(total_fare / distance, 2)` when
`distance = 0`, modelled by `none`. -/
def calcDynamicFare (route : RouteInfo) (cargo_type : String) (weight_tons : ℚ) :
    Option DynamicFare :=
  let distance := route.distance_km
  let base_fare := distance * 55
  let em := effortMultiplier route cargo_type weight_tons
  let adjusted_base := base_fare * em
  let fuel_cost := distance / 3.5 * 90
  let driver_allowance := route.base_hours * 150
  let total_fare := adjusted_base + route.toll_cost + fuel_cost * 0.3
  if distance = 0 then none
  else some
    { base_fare := pythonRound base_fare
      effort_multiplier := pythonRound2 em
      adjusted_base := pythonRound adjusted_base
      toll_cost := route.toll_cost
      fuel_estimate := pythonRound fuel_cost
      driver_allowance := pythonRound driver_allowance
      total_fare := pythonRound total_fare
      per_km_rate := pythonRound2 (total_fare / distance) }

/-- Route with a negative distance: the fare code computes through it. -/
def c7NegativeRoute : RouteInfo := ⟨-100, 0, [], "low", 2⟩

/-- Route with distance 0: the fare code divides by zero on it. -/
def c7ZeroRoute : RouteInfo := ⟨0, 0, [], "low", 2⟩

/-- `DecisionEngine._calculate_progress`.  `elapsed_since_start` is
`some` of `(now - started_at)` in hours when the mission record has a
`started_at` entry, `none` otherwise; `stored_progress` is the record's
`progress_percent` entry (default 0); `expected_hours` is
`mission["eta_range"]["expected"]["hours"]`. -/
def calcProgress (origin destination : String) (expected_hours : ℚ)
    (elapsed_since_start : Option ℚ) (stored_progress : ℚ)
    (current_location : String) : ℚ :=
  if pyLower current_location = pyLower destination then 100
  else if pyLower current_location = pyLower origin then 0
  else
    match elapsed_since_start with
    | some elapsed => pythonRound1 (min 95 (elapsed / expected_hours * 100))
    | none => stored_progress

/-- Journey states of `supervisor.JourneyState`. -/
inductive JourneyState
  | idle | planning | loading | in_transit | at_checkpoint
  | refueling | unloading | returning | completed
deriving DecidableEq

/-- Decision types of `supervisor.DecisionType`. -/
inductive DecisionType
  | route_change | accept_backhaul | reject_backhaul | accept_ltl_load
  | fuel_stop | rest_stop | speed_adjustment | eta_update | alert_driver
  | book_return_load | no_action
deriving DecidableEq

/-- A Python scalar value, for the `Dict[str, Any]` payloads
(`action_details`, `expected_benefit`, `execution_result`). -/
inductive PyVal
  | s (v : String)
  | n (v : ℚ)
  | b (v : Bool)
deriving DecidableEq

/-- `supervisor.TruckState`.  `current_location` is its lat/lng pair. -/
structure TruckState where
  vehicle_id : String
  registration_number : String
  current_location_lat : ℚ
  current_location_lng : ℚ
  current_city : String
  speed_kmh : ℚ
  fuel_level_percent : ℚ
  max_capacity_tons : ℚ
  current_load_tons : ℚ
  driver_name : String
  driver_hours_remaining : ℚ
  last_update : String
deriving DecidableEq

/-- `TruckState.available_capacity_tons`. -/
def TruckState.available_capacity_tons (t : TruckState) : ℚ :=
  t.max_capacity_tons - t.current_load_tons

/-- `TruckState.utilization_percent`. -/
def TruckState.utilization_percent (t : TruckState) : ℚ :=
  t.current_load_tons / t.max_capacity_tons * 100

/-- `supervisor.MissionState` (checkpoint dicts kept as their names). -/
structure MissionState where
  mission_id : String
  origin : String
  destination : String
  origin_address : String
  destination_address : String
  cargo_type : String
  weight_tons : ℚ
  distance_km : ℚ
  progress_km : ℚ
  base_fare : ℚ
  toll_cost : ℚ
  fuel_cost_estimated : ℚ
  started_at : String
  expected_arrival : String
  checkpoints : List String
  current_checkpoint_index : ℕ
deriving DecidableEq

/-- `MissionState.progress_percent`:
`(progress_km / distance_km) * 100 if distance_km > 0 else 0`. -/
def MissionState.progress_percent (m : MissionState) : ℚ :=
  if 0 < m.distance_km then m.progress_km / m.distance_km * 100 else 0

/-- `supervisor.EnvironmentState`. -/
structure EnvironmentState where
  weather_condition : String
  traffic_level : String
  road_condition : String
  delay_probability : ℚ
  current_fuel_price : ℚ
  toll_queue_minutes : ℤ
  border_crossing_delay_minutes : ℤ
  is_festival_season : Bool
  is_strike_alert : Bool
  connectivity_status : String
deriving DecidableEq

/-- Entry of `Observation.available_loads` as `_reason` reads it,
with the `.get` defaults already applied. -/
structure AvailableLoad where
  cargo_type : String
  weight_tons : ℚ
  match_score : ℚ
deriving DecidableEq

/-- `supervisor.Observation` (the `datetime.now()` timestamp, stored but
never read by `_reason`/`_decide`, is omitted). -/
structure Observation where
  journey_state : JourneyState
  truck : TruckState
  mission : Option MissionState
  environment : EnvironmentState
  available_loads : List AvailableLoad
  alerts : List String
deriving DecidableEq

/-- `supervisor.Reasoning`. -/
structure Reasoning where
  observations : List String
  constraints : List String
  opportunities : List String
  risks : List String
  trade_offs : List String
  recommendation : String
  confidence : ℚ
deriving DecidableEq

/-- `supervisor.Decision` (timestamp again omitted). -/
structure Decision where
  decision_type : DecisionType
  action_details : List (String × PyVal)
  reasoning : Reasoning
  expected_benefit : List (String × PyVal)
  priority : String
deriving DecidableEq

/-- `self.config` of `NeuroLogisticsSupervisor.__init__` (never mutated
anywhere in the codebase). -/
def min_profit_threshold : ℚ := 500

/-- Configuration entry `max_detour_km`. -/
def max_detour_km : ℚ := 30

/-- Configuration entry `max_detour_minutes`. -/
def max_detour_minutes : ℚ := 45

/-- Configuration entry `min_fuel_alert_percent`. -/
def min_fuel_alert_percent : ℚ := 25

/-- Configuration entry `driver_rest_threshold_hours`. -/
def driver_rest_threshold_hours : ℚ := 2

/-- Configuration entry `eta_update_threshold_minutes`. -/
def eta_update_threshold_minutes : ℚ := 30

/-- Configuration entry `confidence_threshold`. -/
def confidence_threshold : ℚ := 0.7

/-- `NeuroLogisticsSupervisor._observe`: snapshot plus derived alerts.
The truck's journey state (`self.current_state`) is a parameter. -/
def observe (current_state : JourneyState) (truck : TruckState)
    (mission : Option MissionState) (environment : EnvironmentState)
    (available_loads : List AvailableLoad) : Observation :=
  { journey_state := current_state
    truck := truck
    mission := mission
    environment := environment
    available_loads := available_loads
    alerts :=
      (if truck.fuel_level_percent < min_fuel_alert_percent then
        ["⚠️ Low fuel: " ++ toString truck.fuel_level_percent ++ "%"] else []) ++
      (if truck.driver_hours_remaining < driver_rest_threshold_hours then
        ["⚠️ Driver rest needed in " ++ toString truck.driver_hours_remaining ++ "h"] else []) ++
      (if environment.traffic_level = "heavy" then ["🚗 Heavy traffic ahead"] else []) ++
      (if environment.is_strike_alert then ["🚨 Strike alert in region"] else []) ++
      (if environment.weather_condition = "storm" ∨ environment.weather_condition = "fog" then
        ["🌧️ Adverse weather: " ++ environment.weather_condition] else []) }

/-- The `observations` list `_reason` accumulates, in source order. -/
def reasonObservations (obs : Observation) : List String :=
  (if obs.truck.fuel_level_percent < 30 then
    ["Fuel at " ++ toString obs.truck.fuel_level_percent ++ "%"] else []) ++
  (if 5 < obs.truck.available_capacity_tons then
    ["Unused capacity: " ++ toString obs.truck.available_capacity_tons ++ "T"] else []) ++
  (match obs.mission with
    | some m => ["Mission progress: " ++ toString m.progress_percent ++ "%"]
    | none => [])

/-- The `constraints` list `_reason` accumulates: only the fuel rule
appends to it (driver hours and all other inputs never do). -/
def reasonConstraints (obs : Observation) : List String :=
  if obs.truck.fuel_level_percent < 30 then ["Need to refuel within 100km"] else []

/-- The `opportunities` list `_reason` accumulates, in source order. -/
def reasonOpportunities (obs : Observation) : List String :=
  (if 5 < obs.truck.available_capacity_tons then ["Can accept additional LTL loads"] else []) ++
  (match obs.mission with
    | some m =>
        if 70 < m.progress_percent then
          ["Approaching destination - check return loads"] else []
    | none => []) ++
  (obs.available_loads.filterMap fun load =>
    if 80 < load.match_score then
      some ("High-match load available: " ++ load.cargo_type ++ " (" ++
        toString load.weight_tons ++ "T) - Score: " ++ toString load.match_score)
    else none)

/-- The `risks` list `_reason` accumulates. -/
def reasonRisks (obs : Observation) : List String :=
  if obs.environment.traffic_level = "heavy" then ["Traffic may cause 30+ minute delay"] else []

/-- The `trade_offs` list `_reason` accumulates. -/
def reasonTradeOffs (obs : Observation) : List String :=
  if obs.environment.traffic_level = "heavy" then ["Reroute adds 20km but saves 25 minutes"] else []

/-- The recommendation/confidence pair `_reason` derives from the
constraints and opportunities it built. -/
def reasonRecommendationConfidence (constraints opportunities : List String) : String × ℚ :=
  if opportunities ≠ [] ∧ constraints = [] then
    ("Evaluate opportunities for additional earnings", 0.85)
  else if constraints ≠ [] then
    ("Address constraints first, then evaluate opportunities", 0.9)
  else
    ("Continue current course", 0.95)

/-- `NeuroLogisticsSupervisor._reason`. -/
def reason (obs : Observation) : Reasoning :=
  { observations := reasonObservations obs
    constraints := reasonConstraints obs
    opportunities := reasonOpportunities obs
    risks := reasonRisks obs
    trade_offs := reasonTradeOffs obs
    recommendation := (reasonRecommendationConfidence (reasonConstraints obs) (reasonOpportunities obs)).1
    confidence := (reasonRecommendationConfidence (reasonConstraints obs) (reasonOpportunities obs)).2 }

/-- The initial assignments of `_decide` (returned when no rule fires). -/
def defaultDecision (r : Reasoning) : Decision :=
  { decision_type := .no_action
    action_details := []
    reasoning := r
    expected_benefit := []
    priority := "low" }

/-- The `for opp in reasoning.opportunities` loop of `_decide`: the
first opportunity matching "return load" (lower-cased) books a return
load, else the first matching "LTL" (case-sensitive) or "capacity"
(lower-cased) accepts an LTL load; `break` after the first match. -/
def scanOpportunities (r : Reasoning) : List String → Decision
  | [] => defaultDecision r
  | opp :: rest =>
    if strContains (pyLower opp) "return load" then
      { decision_type := .book_return_load
        action_details := [("action", .s "Pre-book return load"),
          ("search_criteria", .s "Best rate within pickup window")]
        reasoning := r
        expected_benefit := [("earnings", .n 40000), ("avoids_dead_miles", .b true)]
        priority := "medium" }
    else if strContains opp "LTL" || strContains (pyLower opp) "capacity" then
      { decision_type := .accept_ltl_load
        action_details := [("action", .s "Evaluate nearby LTL loads"),
          ("max_detour_km", .n max_detour_km)]
        reasoning := r
        expected_benefit := [("additional_earnings", .n 5000)]
        priority := "low" }
    else scanOpportunities r rest

/-- `NeuroLogisticsSupervisor._decide`: the strict `if/elif` priority
chain (constraints, then risks, then opportunities).  Inside the
constraints branch the "refuel" test comes first and the "rest" test is
its `elif`, so a reasoning carrying both yields FUEL_STOP.  The
`observation` argument is accepted but never read, as in the source. -/
def decideNext (observation : Observation) (r : Reasoning) : Decision :=
  if r.constraints ≠ [] then
    if lowerReprContains r.constraints "refuel" then
      { decision_type := .fuel_stop
        action_details := [("action", .s "Navigate to nearest fuel station"),
          ("urgency", .s "high")]
        reasoning := r
        expected_benefit := [("prevents_breakdown", .b true)]
        priority := "high" }
    else if lowerReprContains r.constraints "rest" then
      { decision_type := .rest_stop
        action_details := [("action", .s "Find safe rest stop"),
          ("mandatory_rest_hours", .n 8)]
        reasoning := r
        expected_benefit := [("compliance", .b true), ("safety", .b true)]
        priority := "critical" }
    else defaultDecision r
  else if r.risks ≠ [] then
    if lowerReprContains r.risks "traffic" then
      { decision_type := .route_change
        action_details := [("action", .s "Evaluate alternate route"),
          ("potential_time_saved_minutes", .n 25)]
        reasoning := r
        expected_benefit := [("time_saved_minutes", .n 25)]
        priority := "medium" }
    else defaultDecision r
  else if r.opportunities ≠ [] then
    scanOpportunities r r.opportunities
  else defaultDecision r

/-- `run_decision_loop` composed of its observe, reason and decide
steps (the history bookkeeping and action queue are process state with
no effect on the returned `Decision`). -/
def runDecisionLoop (current_state : JourneyState) (truck : TruckState)
    (mission : Option MissionState) (environment : EnvironmentState)
    (available_loads : List AvailableLoad) : Decision :=
  let observation := observe current_state truck mission environment available_loads
  decideNext observation (reason observation)

/-- Entry of `nearby_loads` as `analyze_capacity_opportunity` reads it,
with the `.get` defaults (0) applied; `id` stands for the identifying
entries the `{**load}` spread carries along unchanged. -/
structure NearbyLoad where
  id : String
  weight_tons : ℚ
  detour_km : ℚ
  offered_rate : ℚ
deriving DecidableEq

/-- A `matching_loads` entry built by `analyze_capacity_opportunity`:
the original load dict (spread) plus the computed entries. -/
structure MatchedLoad where
  load : NearbyLoad
  net_profit : ℚ
  fuel_cost : ℚ
  time_cost : ℚ
  recommendation : String
deriving DecidableEq

/-- The filter-and-score pass of `analyze_capacity_opportunity`, in
input order: drop loads over capacity, compute costs and net profit,
keep only `net_profit > min_profit_threshold`. -/
def analyzeMatchingLoads (available : ℚ) (nearby : List NearbyLoad) : List MatchedLoad :=
  nearby.filterMap fun load =>
    if load.weight_tons ≤ available then
      let detour_km := load.detour_km
      let offered_rate := load.offered_rate
      let fuel_cost := detour_km * 8
      let time_cost := detour_km / 40 * 500
      let net_profit := offered_rate - fuel_cost - time_cost
      if min_profit_threshold < net_profit then
        some { load := load
               net_profit := net_profit
               fuel_cost := fuel_cost
               time_cost := time_cost
               recommendation := if 2000 < net_profit then "ACCEPT" else "CONSIDER" }
      else none
    else none

/-- Sort relation of `matching_loads.sort(key=net_profit, reverse=True)`. -/
def netProfitGe (a b : MatchedLoad) : Prop := b.net_profit ≤ a.net_profit

instance : DecidableRel netProfitGe :=
  fun a b => inferInstanceAs (Decidable (b.net_profit ≤ a.net_profit))

instance : IsTotal MatchedLoad netProfitGe :=
  ⟨fun a b => le_total b.net_profit a.net_profit⟩

instance : IsTrans MatchedLoad netProfitGe :=
  ⟨fun _ _ _ hab hbc => le_trans hbc hab⟩

/-- Return dict of `analyze_capacity_opportunity`. -/
structure CapacityAnalysis where
  available_capacity_tons : ℚ
  utilization_before : ℚ
  potential_utilization_after : ℚ
  matching_loads : List MatchedLoad
  best_option : Option MatchedLoad
  total_potential_earnings : ℚ
deriving DecidableEq

/-- `NeuroLogisticsSupervisor.analyze_capacity_opportunity`.  Python's
stable `list.sort(key=…, reverse=True)` is `List.insertionSort` with
`netProfitGe` (the unique stable descending sort by that key); the
`mission` argument is accepted but never read, as in the source. -/
def analyzeCapacityOpportunity (truck : TruckState) (mission : MissionState)
    (nearby : List NearbyLoad) : CapacityAnalysis :=
  let available := truck.available_capacity_tons
  let sorted := List.insertionSort netProfitGe (analyzeMatchingLoads available nearby)
  { available_capacity_tons := available
    utilization_before := truck.utilization_percent
    potential_utilization_after :=
      match sorted with
      | [] => 0
      | m :: _ => min 100 (truck.utilization_percent +
          m.load.weight_tons / truck.max_capacity_tons * 100)
    matching_loads := sorted.take 5
    best_option := sorted.head?
    total_potential_earnings := ((sorted.take 3).map MatchedLoad.net_profit).sum }

/-- Statuses of `models.decision.DecisionStatus`. -/
inductive DecisionStatus
  | pending | accepted | rejected | auto_accepted | expired | executed
deriving DecidableEq

/-- The persisted `models.decision.AgentDecision` row, restricted to the
columns its transition methods read or write (the remaining columns are
ordinary data the methods never touch). -/
structure AgentDecisionRec where
  mission_id : String
  decision_type : String
  status : DecisionStatus
  trigger_reason : String
  recommendation : String
  decided_at : Option String
  decided_by : Option String
  rejection_reason : Option String
  executed_at : Option String
  execution_result : Option (List (String × PyVal))
deriving DecidableEq

/-- `AgentDecision.accept` (`now` is the ambient `datetime.utcnow()`,
`decided_by` defaults to "driver" at call sites). -/
def AgentDecisionRec.accept (r : AgentDecisionRec) (now decided_by : String) :
    AgentDecisionRec :=
  { r with status := .accepted, decided_at := some now, decided_by := some decided_by }

/-- `AgentDecision.reject`. -/
def AgentDecisionRec.reject (r : AgentDecisionRec) (now reason decided_by : String) :
    AgentDecisionRec :=
  { r with
    status := .rejected
    decided_at := some now
    decided_by := some decided_by
    rejection_reason := some reason }

/-- `AgentDecision.mark_executed` (`result` defaults to `None`). -/
def AgentDecisionRec.mark_executed (r : AgentDecisionRec) (now : String)
    (result : Option (List (String × PyVal))) : AgentDecisionRec :=
  { r with status := .executed, executed_at := some now, execution_result := result }

/-- Truck of the C1 scenario: fuel 80 %, 1 driver-hour remaining. -/
def c1Truck : TruckState :=
  { vehicle_id := "TRK-001"
    registration_number := "MH04AB1234"
    current_location_lat := 19.07
    current_location_lng := 72.87
    current_city := "Mumbai"
    speed_kmh := 60
    fuel_level_percent := 80
    max_capacity_tons := 25
    current_load_tons := 22
    driver_name := "Ramesh"
    driver_hours_remaining := 1
    last_update := "2025-01-01T08:00:00" }

/-- Calm environment for the C1 scenario. -/
def c1Env : EnvironmentState :=
  { weather_condition := "clear"
    traffic_level := "light"
    road_condition := "good"
    delay_probability := 0.1
    current_fuel_price := 90
    toll_queue_minutes := 5
    border_crossing_delay_minutes := 0
    is_festival_season := false
    is_strike_alert := false
    connectivity_status := "good" }

/-- Observation of the C1 scenario (no mission, no candidate loads). -/
def c1Obs : Observation := observe .in_transit c1Truck none c1Env []

/-- A reasoning carrying both a fuel and a rest constraint, to probe
the constraint branch of `_decide` directly. -/
def c1BothConstraints : Reasoning :=
  { observations := []
    constraints := ["Need to refuel within 100km", "Mandatory rest break required"]
    opportunities := []
    risks := []
    trade_offs := []
    recommendation := ""
    confidence := 0.9 }

/-- Empty truck (25 t capacity, nothing loaded) for the matcher claims. -/
def c6Truck : TruckState :=
  { vehicle_id := "TRK-002"
    registration_number := "DL01CD5678"
    current_location_lat := 28.61
    current_location_lng := 77.21
    current_city := "Delhi"
    speed_kmh := 55
    fuel_level_percent := 60
    max_capacity_tons := 25
    current_load_tons := 0
    driver_name := "Suresh"
    driver_hours_remaining := 8
    last_update := "2025-01-01T09:00:00" }

/-- Mission argument for the matcher claims (never read). -/
def c6Mission : MissionState :=
  { mission_id := "m-001"
    origin := "Delhi"
    destination := "Mumbai"
    origin_address := "Delhi"
    destination_address := "Mumbai"
    cargo_type := "general"
    weight_tons := 0
    distance_km := 1420
    progress_km := 900
    base_fare := 100000
    toll_cost := 2800
    fuel_cost_estimated := 36000
    started_at := "2025-01-01T00:00:00"
    expected_arrival := "2025-01-02T04:00:00"
    checkpoints := ["Rajasthan Border", "Gujarat Border", "Maharashtra Border"]
    current_checkpoint_index := 1 }

/-- Candidate with a 25 km detour priced so its net profit is 3000. -/
def c6LoadB : NearbyLoad :=
  { id := "bh-25", weight_tons := 1, detour_km := 25, offered_rate := 3512.5 }

/-- Candidate with a 10 km detour priced so its net profit is 3000. -/
def c6LoadA : NearbyLoad :=
  { id := "ltl-10", weight_tons := 1, detour_km := 10, offered_rate := 3205 }

/-- The matched entry the scorer builds from `c6LoadA`. -/
def c6MatchedA : MatchedLoad :=
  { load := c6LoadA, net_profit := 3000, fuel_cost := 80, time_cost := 125,
    recommendation := "ACCEPT" }

/-- The matched entry the scorer builds from `c6LoadB`. -/
def c6MatchedB : MatchedLoad :=
  { load := c6LoadB, net_profit := 3000, fuel_cost := 200, time_cost := 312.5,
    recommendation := "ACCEPT" }

/-- A decision record already in the REJECTED state. -/
def c2RejectedRec : AgentDecisionRec :=
  { mission_id := "m-001"
    decision_type := "load_match"
    status := .rejected
    trigger_reason := "capacity available"
    recommendation := "Accept the pooled load"
    decided_at := some "2025-01-01T10:00:00"
    decided_by := some "driver"
    rejection_reason := some "margin too thin"
    executed_at := none
    execution_result := none }

theorem pythonRound_floor_le (q : ℚ) : ⌊q⌋ ≤ pythonRound q := by
  unfold pythonRound; split_ifs <;> omega

theorem pythonRound_le_floor_add_one (q : ℚ) : pythonRound q ≤ ⌊q⌋ + 1 := by
  unfold pythonRound; split_ifs <;> omega

theorem pythonRound_mono {q r : ℚ} (h : q ≤ r) : pythonRound q ≤ pythonRound r := by
  rcases lt_or_le ⌊q⌋ ⌊r⌋ with hf | hf
  · have h1 := pythonRound_le_floor_add_one q
    have h2 := pythonRound_floor_le r
    omega
  · have hfe : ⌊q⌋ = ⌊r⌋ := le_antisymm (Int.floor_le_floor h) hf
    have hq : q - (⌊r⌋ : ℚ) ≤ r - (⌊r⌋ : ℚ) := by linarith
    unfold pythonRound
    rw [hfe]
    split_ifs <;> first | omega | (exfalso; linarith)

theorem pythonRound_intCast (n : ℤ) : pythonRound (n : ℚ) = n := by
  unfold pythonRound
  rw [Int.floor_intCast, sub_self]
  norm_num

theorem pythonRound1_mono {q r : ℚ} (h : q ≤ r) : pythonRound1 q ≤ pythonRound1 r := by
  unfold pythonRound1
  have h10 : q * 10 ≤ r * 10 := by linarith
  have hz := pythonRound_mono h10
  have hc : ((pythonRound (q * 10) : ℚ)) ≤ (pythonRound (r * 10) : ℚ) := by exact_mod_cast hz
  linarith

theorem pythonRound1_intCast (n : ℤ) : pythonRound1 (n : ℚ) = n := by
  unfold pythonRound1
  have h : ((n : ℚ) * 10) = ((n * 10 : ℤ) : ℚ) := by push_cast; ring
  rw [h, pythonRound_intCast]
  push_cast; ring

theorem pythonRound1_le_intCast {q : ℚ} {n : ℤ} (h : q ≤ (n : ℚ)) :
    pythonRound1 q ≤ (n : ℚ) := by
  have := pythonRound1_mono h
  rwa [pythonRound1_intCast] at this

theorem pythonRound1_intCast_le {q : ℚ} {n : ℤ} (h : (n : ℚ) ≤ q) :
    (n : ℚ) ≤ pythonRound1 q := by
  have := pythonRound1_mono h
  rwa [pythonRound1_intCast] at this

/-- Claim C8: for every route input with `base_hours ≥ 0`, the route's
ETA fields are `round(base_hours*0.9, 1)`, `round(base_hours*1.15, 1)`
and `round(base_hours*1.5, 1)`, and optimistic ≤ expected ≤ pessimistic
holds in all cases — for those fields and equally for the supervisor's
delay-based `_calculate_eta_range` whenever its expected delay is
nonnegative. -/
theorem eta_range_properties (b v d : ℚ) (hb : 0 ≤ b) (hd : 0 ≤ d) :
    ((addVariability b v).eta_optimistic_hours = pythonRound1 (b * 0.9) ∧
      (addVariability b v).eta_expected_hours = pythonRound1 (b * 1.15) ∧
      (addVariability b v).eta_pessimistic_hours = pythonRound1 (b * 1.5)) ∧
    ((addVariability b v).eta_optimistic_hours ≤ (addVariability b v).eta_expected_hours ∧
      (addVariability b v).eta_expected_hours ≤ (addVariability b v).eta_pessimistic_hours) ∧
    ((calcEtaRange b d).optimistic_hours ≤ (calcEtaRange b d).expected_hours ∧
      (calcEtaRange b d).expected_hours ≤ (calcEtaRange b d).pessimistic_hours) := by
  refine ⟨⟨rfl, rfl, rfl⟩, ⟨?_, ?_⟩, ?_, ?_⟩ <;>
    · show pythonRound1 _ ≤ pythonRound1 _
      apply pythonRound1_mono
      linarith

/-- Witness for C8 at the Delhi–Mumbai base of 24 hours. -/
theorem eta_range_properties_witness :
    ((addVariability 24 1 : RouteEta).eta_optimistic_hours = pythonRound1 (24 * 0.9) ∧
      (addVariability 24 1 : RouteEta).eta_expected_hours = pythonRound1 (24 * 1.15) ∧
      (addVariability 24 1 : RouteEta).eta_pessimistic_hours = pythonRound1 (24 * 1.5)) ∧
    ((addVariability 24 1 : RouteEta).eta_optimistic_hours ≤ (addVariability 24 1 : RouteEta).eta_expected_hours ∧
      (addVariability 24 1 : RouteEta).eta_expected_hours ≤ (addVariability 24 1 : RouteEta).eta_pessimistic_hours) ∧
    ((calcEtaRange 24 2).optimistic_hours ≤ (calcEtaRange 24 2).expected_hours ∧
      (calcEtaRange 24 2).expected_hours ≤ (calcEtaRange 24 2).pessimistic_hours) :=
  eta_range_properties 24 1 2 (by norm_num) (by norm_num)

theorem weightEffort_nonneg (w : ℚ) : 0 ≤ weightEffort w := by
  unfold weightEffort; split_ifs <;> norm_num

theorem weightEffort_mono {w1 w2 : ℚ} (h : w1 ≤ w2) :
    weightEffort w1 ≤ weightEffort w2 := by
  unfold weightEffort
  split_ifs <;> linarith

theorem cargoFactor_nonneg (c : String) : 0 ≤ cargoFactor c := by
  unfold cargoFactor cargoFactorTable; split_ifs <;> norm_num

theorem riskFactor_nonneg (r : String) : 0 ≤ riskFactor r := by
  unfold riskFactor; split_ifs <;> norm_num

theorem effortMultiplier_nonneg (route : RouteInfo) (cargo : String) (w : ℚ) :
    0 ≤ effortMultiplier route cargo w := by
  unfold effortMultiplier
  have h1 := weightEffort_nonneg w
  have h2 := cargoFactor_nonneg cargo
  have h3 := riskFactor_nonneg route.risk_level
  have h4 : (0 : ℚ) ≤ (route.checkpoints.length : ℚ) * 0.03 := by positivity
  linarith

theorem effortMultiplier_mono_weight (route : RouteInfo) (cargo : String)
    {w1 w2 : ℚ} (h : w1 ≤ w2) :
    effortMultiplier route cargo w1 ≤ effortMultiplier route cargo w2 := by
  unfold effortMultiplier
  have := weightEffort_mono h
  linarith

/-- Claim C3: with the other inputs fixed and a nonnegative distance,
`total_fare` is monotonically non-decreasing in weight, in distance and
in checkpoint count. -/
theorem total_fare_monotone
    (d1 d2 toll : ℚ) (cps1 cps2 : List String) (risk cargo : String) (bh w1 w2 : ℚ)
    (hd0 : 0 ≤ d1) (hd : d1 ≤ d2) (hw : w1 ≤ w2) (hcp : cps1.length ≤ cps2.length) :
    fareTotal ⟨d1, toll, cps1, risk, bh⟩ cargo w1 ≤ fareTotal ⟨d1, toll, cps1, risk, bh⟩ cargo w2 ∧
    fareTotal ⟨d1, toll, cps1, risk, bh⟩ cargo w1 ≤ fareTotal ⟨d2, toll, cps1, risk, bh⟩ cargo w1 ∧
    fareTotal ⟨d1, toll, cps1, risk, bh⟩ cargo w1 ≤ fareTotal ⟨d1, toll, cps2, risk, bh⟩ cargo w1 := by
  refine ⟨pythonRound_mono ?_, pythonRound_mono ?_, pythonRound_mono ?_⟩
  · unfold fareTotalValue
    dsimp only
    have hm := effortMultiplier_mono_weight (⟨d1, toll, cps1, risk, bh⟩ : RouteInfo) cargo hw
    have h55 : (0 : ℚ) ≤ d1 * 55 := by linarith
    have := mul_le_mul_of_nonneg_left hm h55
    linarith
  · unfold fareTotalValue
    have hem : 0 ≤ effortMultiplier ⟨d1, toll, cps1, risk, bh⟩ cargo w1 :=
      effortMultiplier_nonneg _ _ _
    have heq : effortMultiplier ⟨d2, toll, cps1, risk, bh⟩ cargo w1 =
        effortMultiplier ⟨d1, toll, cps1, risk, bh⟩ cargo w1 := by
      unfold effortMultiplier; dsimp only
    rw [heq]
    dsimp only
    have h1 : d1 * 55 * effortMultiplier ⟨d1, toll, cps1, risk, bh⟩ cargo w1 ≤
        d2 * 55 * effortMultiplier ⟨d1, toll, cps1, risk, bh⟩ cargo w1 :=
      mul_le_mul_of_nonneg_right (by linarith) hem
    have h2 : d1 / 3.5 * 90 * 0.3 ≤ d2 / 3.5 * 90 * 0.3 := by
      have hh := mul_le_mul_of_nonneg_right hd (by norm_num : (0 : ℚ) ≤ 1 / 3.5 * 90 * 0.3)
      calc d1 / 3.5 * 90 * 0.3 = d1 * (1 / 3.5 * 90 * 0.3) := by ring
        _ ≤ d2 * (1 / 3.5 * 90 * 0.3) := hh
        _ = d2 / 3.5 * 90 * 0.3 := by ring
    linarith
  · unfold fareTotalValue
    dsimp only
    have hc : (cps1.length : ℚ) ≤ (cps2.length : ℚ) := by exact_mod_cast hcp
    have hm : effortMultiplier ⟨d1, toll, cps1, risk, bh⟩ cargo w1 ≤
        effortMultiplier ⟨d1, toll, cps2, risk, bh⟩ cargo w1 := by
      unfold effortMultiplier
      dsimp only
      linarith
    have h55 : (0 : ℚ) ≤ d1 * 55 := by linarith
    have := mul_le_mul_of_nonneg_left hm h55
    linarith

/-- Witness for C3 at the Delhi–Mumbai route data. -/
theorem total_fare_monotone_witness :
    fareTotal ⟨1420, 2800, ["Rajasthan Border", "Gujarat Border", "Maharashtra Border"], "medium", 24⟩ "electronics" 12 ≤
      fareTotal ⟨1420, 2800, ["Rajasthan Border", "Gujarat Border", "Maharashtra Border"], "medium", 24⟩ "electronics" 16 ∧
    fareTotal ⟨1420, 2800, ["Rajasthan Border", "Gujarat Border", "Maharashtra Border"], "medium", 24⟩ "electronics" 12 ≤
      fareTotal ⟨1530, 2800, ["Rajasthan Border", "Gujarat Border", "Maharashtra Border"], "medium", 24⟩ "electronics" 12 ∧
    fareTotal ⟨1420, 2800, ["Rajasthan Border", "Gujarat Border", "Maharashtra Border"], "medium", 24⟩ "electronics" 12 ≤
      fareTotal ⟨1420, 2800, ["Rajasthan Border", "Gujarat Border", "Maharashtra Border", "UP Border"], "medium", 24⟩ "electronics" 12 :=
  total_fare_monotone 1420 1530 2800
    ["Rajasthan Border", "Gujarat Border", "Maharashtra Border"]
    ["Rajasthan Border", "Gujarat Border", "Maharashtra Border", "UP Border"]
    "medium" "electronics" 24 12 16
    (by norm_num) (by norm_num) (by norm_num) (by decide)

/-- Claim C7, counterexample: the fare code does not reject a negative
distance and weight (it returns a computed fare), and at distance 0 it
fails with an untyped `ZeroDivisionError` rather than a typed
`InvalidInput`. -/
theorem calc_fare_no_validation_cex :
    (calcDynamicFare c7NegativeRoute "general" (-5)).isSome = true ∧
    calcDynamicFare c7ZeroRoute "steel" 5 = none := by
  constructor
  · norm_num [calcDynamicFare, c7NegativeRoute]
  · norm_num [calcDynamicFare, c7ZeroRoute]

/-- Claim C7, amended: `_calculate_dynamic_fare` performs no input
validation at all; for every input whose distance is nonzero (including
negative distances and non-positive weights) it computes and returns a
fare dict. -/
theorem calc_fare_computes_on_nonzero (route : RouteInfo) (cargo : String) (w : ℚ)
    (h : route.distance_km ≠ 0) :
    (calcDynamicFare route cargo w).isSome = true := by
  simp [calcDynamicFare, h]

/-- Witness for the amended C7 at distance −100 and weight −5. -/
theorem calc_fare_computes_on_nonzero_witness :
    (calcDynamicFare c7NegativeRoute "general" (-5)).isSome = true :=
  calc_fare_computes_on_nonzero c7NegativeRoute "general" (-5)
    (by norm_num [c7NegativeRoute])

/-- Claim C10: for a started mission evaluated no earlier than its
start, progress is within [0, 100]; it is exactly 100 when the current
location case-insensitively equals the destination, exactly 0 when it
equals the origin (and not the destination), and at most 95 otherwise. -/
theorem calc_progress_bounds (origin destination loc : String)
    (expected elapsed stored : ℚ) (hexp : 0 < expected) (hel : 0 ≤ elapsed) :
    (0 ≤ calcProgress origin destination expected (some elapsed) stored loc ∧
      calcProgress origin destination expected (some elapsed) stored loc ≤ 100) ∧
    (pyLower loc = pyLower destination →
      calcProgress origin destination expected (some elapsed) stored loc = 100) ∧
    (pyLower loc ≠ pyLower destination → pyLower loc = pyLower origin →
      calcProgress origin destination expected (some elapsed) stored loc = 0) ∧
    (pyLower loc ≠ pyLower destination → pyLower loc ≠ pyLower origin →
      calcProgress origin destination expected (some elapsed) stored loc ≤ 95) := by
  by_cases hdest : pyLower loc = pyLower destination
  · have hval : calcProgress origin destination expected (some elapsed) stored loc = 100 := by
      unfold calcProgress; rw [if_pos hdest]
    rw [hval]
    exact ⟨⟨by norm_num, le_refl _⟩, fun _ => rfl,
      fun hne _ => absurd hdest hne, fun hne _ => absurd hdest hne⟩
  · by_cases horig : pyLower loc = pyLower origin
    · have hval : calcProgress origin destination expected (some elapsed) stored loc = 0 := by
        unfold calcProgress; rw [if_neg hdest, if_pos horig]
      rw [hval]
      exact ⟨⟨le_refl _, by norm_num⟩, fun hc => absurd hc hdest,
        fun _ _ => rfl, fun _ _ => by norm_num⟩
    · have hx : 0 ≤ elapsed / expected * 100 :=
        mul_nonneg (div_nonneg hel hexp.le) (by norm_num)
      have hmin0 : (0 : ℚ) ≤ min 95 (elapsed / expected * 100) :=
        le_min (by norm_num) hx
      have hmin95 : min 95 (elapsed / expected * 100) ≤ 95 := min_le_left _ _
      have hlo : (0 : ℚ) ≤ pythonRound1 (min 95 (elapsed / expected * 100)) := by
        have h0 := pythonRound1_intCast_le (n := 0) (by exact_mod_cast hmin0)
        simpa using h0
      have hhi : pythonRound1 (min 95 (elapsed / expected * 100)) ≤ 95 := by
        have h95 := pythonRound1_le_intCast (n := 95) (by exact_mod_cast hmin95)
        simpa using h95
      have hval : calcProgress origin destination expected (some elapsed) stored loc =
          pythonRound1 (min 95 (elapsed / expected * 100)) := by
        unfold calcProgress; rw [if_neg hdest, if_neg horig]
      rw [hval]
      exact ⟨⟨hlo, by linarith⟩, fun hc => absurd hc hdest,
        fun _ hc => absurd hc horig, fun _ _ => hhi⟩

/-- Witness for C10 with a mission from Delhi to Mumbai currently at
Jaipur, 5 hours in, expected duration 27.6 hours. -/
theorem calc_progress_bounds_witness :
    (0 ≤ calcProgress "Delhi" "Mumbai" 27.6 (some 5) 0 "Jaipur" ∧
      calcProgress "Delhi" "Mumbai" 27.6 (some 5) 0 "Jaipur" ≤ 100) ∧
    (pyLower "Jaipur" = pyLower "Mumbai" →
      calcProgress "Delhi" "Mumbai" 27.6 (some 5) 0 "Jaipur" = 100) ∧
    (pyLower "Jaipur" ≠ pyLower "Mumbai" → pyLower "Jaipur" = pyLower "Delhi" →
      calcProgress "Delhi" "Mumbai" 27.6 (some 5) 0 "Jaipur" = 0) ∧
    (pyLower "Jaipur" ≠ pyLower "Mumbai" → pyLower "Jaipur" ≠ pyLower "Delhi" →
      calcProgress "Delhi" "Mumbai" 27.6 (some 5) 0 "Jaipur" ≤ 95) :=
  calc_progress_bounds "Delhi" "Mumbai" "Jaipur" 27.6 5 0 (by norm_num) (by norm_num)

/-- Claim C2, counterexample: `accept` on a record whose status is
REJECTED does not fail and does not leave the record unchanged — it
silently overwrites the status with ACCEPTED (there is no
InvalidStateTransition check anywhere in the transition methods). -/
theorem decision_record_second_transition_cex :
    (c2RejectedRec.accept "2025-01-01T11:00:00" "driver").status = DecisionStatus.accepted ∧
    c2RejectedRec.status = DecisionStatus.rejected ∧
    (c2RejectedRec.accept "2025-01-01T11:00:00" "driver").status ≠ c2RejectedRec.status := by
  refine ⟨rfl, rfl, ?_⟩
  intro h
  simp [AgentDecisionRec.accept, c2RejectedRec] at h

/-- Claim C2, amended: `accept`, `reject` and `mark_executed` perform no
check of the current status at all; each unconditionally overwrites the
status (and its timestamp fields), whatever state the record is in. -/
theorem decision_record_transitions_unconditional (r : AgentDecisionRec)
    (now reason decided_by : String) (result : Option (List (String × PyVal))) :
    (r.accept now decided_by).status = DecisionStatus.accepted ∧
    (r.reject now reason decided_by).status = DecisionStatus.rejected ∧
    (r.mark_executed now result).status = DecisionStatus.executed :=
  ⟨rfl, rfl, rfl⟩

theorem c6_matching_eval :
    analyzeMatchingLoads c6Truck.available_capacity_tons [c6LoadB, c6LoadA] =
      [c6MatchedB, c6MatchedA] := by
  norm_num [analyzeMatchingLoads, List.filterMap_cons, List.filterMap_nil,
    c6LoadB, c6LoadA, c6MatchedB, c6MatchedA, c6Truck,
    TruckState.available_capacity_tons, min_profit_threshold,
    MatchedLoad.mk.injEq, NearbyLoad.mk.injEq]

theorem c6_sort_eval :
    List.insertionSort netProfitGe [c6MatchedB, c6MatchedA] = [c6MatchedB, c6MatchedA] := by
  norm_num [List.insertionSort, List.orderedInsert, netProfitGe, c6MatchedB, c6MatchedA]

theorem c6_matching_loads_eval :
    (analyzeCapacityOpportunity c6Truck c6Mission [c6LoadB, c6LoadA]).matching_loads =
      [c6MatchedB, c6MatchedA] := by
  show (List.insertionSort netProfitGe
      (analyzeMatchingLoads c6Truck.available_capacity_tons [c6LoadB, c6LoadA])).take 5 = _
  rw [c6_matching_eval, c6_sort_eval]
  rfl

/-- Claim C4: every load in the matcher's returned `matching_loads` list
weighs no more than the truck's available capacity (over-capacity loads
are filtered out before scoring). -/
theorem capacity_matches_within_available (truck : TruckState) (mission : MissionState)
    (nearby : List NearbyLoad) (m : MatchedLoad)
    (hm : m ∈ (analyzeCapacityOpportunity truck mission nearby).matching_loads) :
    m.load.weight_tons ≤ truck.available_capacity_tons := by
  have h1 : m ∈ List.insertionSort netProfitGe
      (analyzeMatchingLoads truck.available_capacity_tons nearby) :=
    List.take_subset 5 _ hm
  have h2 : m ∈ analyzeMatchingLoads truck.available_capacity_tons nearby :=
    (List.perm_insertionSort netProfitGe _).mem_iff.mp h1
  simp only [analyzeMatchingLoads, List.mem_filterMap] at h2
  obtain ⟨load, hin, heq⟩ := h2
  split_ifs at heq with hw hnet
  all_goals
    first
      | (rw [Option.some_inj] at heq; subst heq; exact hw)
      | exact absurd heq (by simp)

/-- Witness for C4: a concrete matched load inside the returned list. -/
theorem capacity_matches_within_available_witness :
    c6MatchedA ∈ (analyzeCapacityOpportunity c6Truck c6Mission [c6LoadB, c6LoadA]).matching_loads ∧
    c6MatchedA.load.weight_tons ≤ c6Truck.available_capacity_tons := by
  have hmem : c6MatchedA ∈
      (analyzeCapacityOpportunity c6Truck c6Mission [c6LoadB, c6LoadA]).matching_loads := by
    rw [c6_matching_loads_eval]
    simp
  exact ⟨hmem, capacity_matches_within_available c6Truck c6Mission [c6LoadB, c6LoadA]
    c6MatchedA hmem⟩

/-- Claim C5: for every returned match, `net_profit` is exactly
`offered_rate - fuel_cost - time_cost`, and every load whose net profit
is at or below `min_profit_threshold` (500) is absent from the list
(the filter keeps only strictly greater net profits). -/
theorem capacity_matches_net_benefit (truck : TruckState) (mission : MissionState)
    (nearby : List NearbyLoad) (m : MatchedLoad)
    (hm : m ∈ (analyzeCapacityOpportunity truck mission nearby).matching_loads) :
    m.net_profit = m.load.offered_rate - m.fuel_cost - m.time_cost ∧
    min_profit_threshold < m.net_profit := by
  have h1 : m ∈ List.insertionSort netProfitGe
      (analyzeMatchingLoads truck.available_capacity_tons nearby) :=
    List.take_subset 5 _ hm
  have h2 : m ∈ analyzeMatchingLoads truck.available_capacity_tons nearby :=
    (List.perm_insertionSort netProfitGe _).mem_iff.mp h1
  simp only [analyzeMatchingLoads, List.mem_filterMap] at h2
  obtain ⟨load, hin, heq⟩ := h2
  split_ifs at heq with hw hnet
  all_goals
    first
      | (rw [Option.some_inj] at heq; subst heq; exact ⟨rfl, hnet⟩)
      | exact absurd heq (by simp)

/-- Witness for C5 at the same concrete matched load. -/
theorem capacity_matches_net_benefit_witness :
    c6MatchedA ∈ (analyzeCapacityOpportunity c6Truck c6Mission [c6LoadB, c6LoadA]).matching_loads ∧
    (c6MatchedA.net_profit = c6MatchedA.load.offered_rate - c6MatchedA.fuel_cost - c6MatchedA.time_cost ∧
      min_profit_threshold < c6MatchedA.net_profit) := by
  have hmem : c6MatchedA ∈
      (analyzeCapacityOpportunity c6Truck c6Mission [c6LoadB, c6LoadA]).matching_loads := by
    rw [c6_matching_loads_eval]
    simp
  exact ⟨hmem, capacity_matches_net_benefit c6Truck c6Mission [c6LoadB, c6LoadA]
    c6MatchedA hmem⟩

/-- Claim C6, counterexample: two candidates with equal net profit 3000
and detours 25 km and 10 km, fed in that order, come back in that same
order — the 25 km load ranks above the 10 km load, against the claimed
lower-detour tie-break (the sort key is net profit alone and the sort is
stable). -/
theorem capacity_sort_tie_cex :
    ((analyzeCapacityOpportunity c6Truck c6Mission [c6LoadB, c6LoadA]).matching_loads.map
      fun m => (m.load.detour_km, m.net_profit)) = [(25, 3000), (10, 3000)] := by
  rw [c6_matching_loads_eval]
  norm_num [c6MatchedB, c6MatchedA, c6LoadB, c6LoadA]

/-- Claim C6, amended: the output is sorted by non-increasing
`net_profit` only; equal net profits keep their input order (stable
sort) — here the 25 km-detour load stays ranked above the 10 km one
because it came first. -/
theorem capacity_sort_amended :
    (∀ (truck : TruckState) (mission : MissionState) (nearby : List NearbyLoad),
      List.Pairwise netProfitGe (analyzeCapacityOpportunity truck mission nearby).matching_loads) ∧
    ((analyzeCapacityOpportunity c6Truck c6Mission [c6LoadB, c6LoadA]).matching_loads.map
      fun m => m.load.id) = ["bh-25", "ltl-10"] := by
  constructor
  · intro truck mission nearby
    have hs := List.sorted_insertionSort netProfitGe
      (analyzeMatchingLoads truck.available_capacity_tons nearby)
    show List.Pairwise netProfitGe
      ((List.insertionSort netProfitGe
        (analyzeMatchingLoads truck.available_capacity_tons nearby)).take 5)
    exact List.Pairwise.sublist (List.take_sublist 5 _) hs
  · rw [c6_matching_loads_eval]
    norm_num [c6MatchedB, c6MatchedA, c6LoadB, c6LoadA]

/-- Claim C9: the confidence the reasoning step assigns is exactly 0.95
with no constraints and no opportunities, exactly 0.90 whenever
constraints are present, and exactly 0.85 with opportunities but no
constraints — for every observation. -/
theorem reason_confidence_policy (obs : Observation) :
    ((reason obs).constraints = [] → (reason obs).opportunities = [] →
      (reason obs).confidence = 0.95) ∧
    ((reason obs).constraints ≠ [] → (reason obs).confidence = 0.9) ∧
    ((reason obs).constraints = [] → (reason obs).opportunities ≠ [] →
      (reason obs).confidence = 0.85) := by
  have hc : (reason obs).constraints = reasonConstraints obs := rfl
  have ho : (reason obs).opportunities = reasonOpportunities obs := rfl
  have hcf : (reason obs).confidence =
      (reasonRecommendationConfidence (reasonConstraints obs) (reasonOpportunities obs)).2 := rfl
  rw [hc, ho, hcf]
  by_cases h1 : reasonConstraints obs = [] <;> by_cases h2 : reasonOpportunities obs = [] <;>
    simp [reasonRecommendationConfidence, h1, h2]

/-- Claim C1: in the fuel = 80 %, driver_hours_remaining = 1 scenario
the decision loop returns NO_ACTION with priority "low", not REST_STOP
with priority "critical" — `_reason` never emits a rest constraint
(only the fuel rule ever appends to `constraints`), and even a
reasoning carrying both a refuel and a rest constraint is decided as
FUEL_STOP/"high" because the refuel test precedes the rest test in
`_decide`'s `if/elif`. -/
theorem rest_scenario_code_divergence :
    (runDecisionLoop .in_transit c1Truck none c1Env []).decision_type = DecisionType.no_action ∧
    (runDecisionLoop .in_transit c1Truck none c1Env []).priority = "low" ∧
    (reason c1Obs).constraints = [] ∧
    (decideNext c1Obs c1BothConstraints).decision_type = DecisionType.fuel_stop ∧
    (decideNext c1Obs c1BothConstraints).priority = "high" := by
  have hobs : observe .in_transit c1Truck none c1Env [] = c1Obs := rfl
  have hc : reasonConstraints c1Obs = [] := by
    norm_num [reasonConstraints, c1Obs, observe, c1Truck]
  have ho : reasonOpportunities c1Obs = [] := by
    norm_num [reasonOpportunities, c1Obs, observe, c1Truck,
      TruckState.available_capacity_tons]
  have hr : reasonRisks c1Obs = [] := by decide
  have hrc : (reason c1Obs).constraints = [] := hc
  have hro : (reason c1Obs).opportunities = [] := ho
  have hrr : (reason c1Obs).risks = [] := hr
  have hfuel : lowerReprContains
      ["Need to refuel within 100km", "Mandatory rest break required"] "refuel" = true := by
    decide
  refine ⟨?_, ?_, hc, ?_, ?_⟩
  · show (decideNext c1Obs (reason c1Obs)).decision_type = _
    simp [decideNext, hrc, hro, hrr, defaultDecision]
  · show (decideNext c1Obs (reason c1Obs)).priority = _
    simp [decideNext, hrc, hro, hrr, defaultDecision]
  · simp [decideNext, c1BothConstraints, hfuel]
  · simp [decideNext, c1BothConstraints, hfuel]
